import Mathlib

/-!
# Authentication handlers of the blogging platform

A shallow embedding of `Server/Controllers/auth.js` (with the routes of
`Server/Views/UserRouter.js`).  Each asynchronous handler `(req, res)` becomes a
pure function from the credential store and the request to the store afterwards,
the HTTP response, the `console.error` calls and the outbound mails.

Conventions of the embedding:

* A JSON body field is an `Option String`: `none` is an absent field
  (`undefined`), `some s` a JSON string.  Other JSON values are outside the model.
* `User._id` is the position of the document in the `users` collection (users
  are never deleted), `Profile._id` the position in the `profiles` collection.
* `bcrypt`, `jsonwebtoken`, `utils/ResetToken.js`, `utils/Email.js` and
  `process.env` are collaborators of `auth.js`; they are the fields of `Env`.
  `bcrypt.hash`, `bcrypt.compare` and `jwt.sign` return on strings; the reset-token
  verifier and the mail service may throw.
* A rejected store operation is a flag of `Faults`; a rejected operation leaves
  the store as it was and the handler's `catch` block runs.
-/

namespace Auth

/-! ## Data model -/

/-- A document of the `User` model (`Models/Users.js`): `password` holds what
`handleSignUp` / `handleResetPassword` wrote there. -/
structure User where
  name : String
  email : String
  password : String
deriving DecidableEq, Repr

/-- A document of the `Profile` model: `user` is the `_id` of the user it belongs
to, `image` the uploaded image, if any. -/
structure Profile where
  user : Nat
  image : Option String
deriving DecidableEq, Repr

/-- The two collections behind the Mongoose models. -/
structure Store where
  users : List User
  profiles : List Profile
deriving DecidableEq, Repr

/-- Options object passed to `res.cookie` / `res.clearCookie`. -/
structure CookieOptions where
  httpOnly : Bool
  sameSite : String
  secure : Bool
deriving DecidableEq, Repr

/-- A `Set-Cookie` effect recorded on the response. -/
inductive CookieOp where
  | set (name value : String) (opts : CookieOptions)
  | clear (name : String) (opts : CookieOptions)
deriving DecidableEq, Repr

/-- The response: status, the single key of the JSON body (`message` or `error`)
with its text, and the cookie effects in order. -/
structure Response where
  status : Nat
  key : String
  text : String
  cookies : List CookieOp := []
deriving DecidableEq, Repr

/-- The site that threw the value caught by a handler's `catch (error)`. -/
inductive Thrown where
  | userFindOne
  | userSave
  | profileFindOne
  | profileSave
  | profileDeleteOne
  | resetToken
  | emailService
deriving DecidableEq, Repr

/-- One `console.error(label, error)` call. -/
structure LogCall where
  label : String
  error : Thrown
deriving DecidableEq, Repr

/-- One `handleEmailService(toEmail, link, name)` call. -/
structure Mail where
  toEmail : String
  link : String
  name : String
deriving DecidableEq, Repr

/-- What one handler invocation leaves behind. -/
structure Result where
  db : Store
  res : Response
  log : List LogCall := []
  sent : List Mail := []
deriving DecidableEq, Repr

/-- The collaborators imported by `auth.js`. `verifyPasswordResetToken` returns the
email of the decoded payload, `none` when it throws; `handleEmailService` returns
the success flag, `none` when it throws. -/
structure Env where
  hash : String → Nat → String
  compare : String → String → Bool
  sign : String → String → String → String → String
  SECRET_KEY : String
  CLIENT_URL : String
  generatePasswordResetToken : String → String
  verifyPasswordResetToken : String → Option String
  handleEmailService : String → String → String → Option Bool

/-- Which store operations reject during one handler invocation. -/
structure Faults where
  userFindOne : Bool := false
  userSave : Bool := false
  profileFindOne : Bool := false
  profileSave : Bool := false
  profileDeleteOne : Bool := false
deriving DecidableEq, Repr

/-- Body of `POST /signup`. -/
structure SignUpBody where
  name : Option String
  email : Option String
  password : Option String
deriving DecidableEq, Repr

/-- Body of `POST /signin`. -/
structure SignInBody where
  email : Option String
  password : Option String
deriving DecidableEq, Repr

/-! ## JavaScript primitives used by the handlers -/

/-- UTF-16 code units of one character. -/
def utf16Units (c : Char) : Nat :=
  if c.val.toNat < 65536 then 1 else 2

/-- The `.length` of a JavaScript string: its number of UTF-16 code units. -/
def jsLength (s : String) : Nat :=
  (s.data.map utf16Units).sum

/-- The value is falsy: `!field` for an absent field or the empty string. -/
def falsy : Option String → Bool
  | none => true
  | some s => s.data.isEmpty

/-- The string carried by a field (only read after the `!field` guard). -/
def str : Option String → String
  | none => ""
  | some s => s

/-! ## Store operations -/

/-- Model of `User.findOne({ email })`: the first document with that email, with its `_id`. -/
def findOneFrom (email : String) : Nat → List User → Option (Nat × User)
  | _, [] => none
  | i, u :: us => if u.email = email then some (i, u) else findOneFrom email (i + 1) us

/-- Model of `User.findOne({ email })` on the collection. -/
def User.findOne (db : Store) (email : String) : Option (Nat × User) :=
  findOneFrom email 0 db.users

/-- Model of `new User(doc).save()`: the document is appended to the collection. -/
def User.create (db : Store) (doc : User) : Store :=
  { db with users := db.users ++ [doc] }

/-- Model of `existingUser.save()` after mutation: the document with that `_id` is replaced. -/
def User.save (db : Store) (id : Nat) (doc : User) : Store :=
  { db with users := db.users.set id doc }

/-- Model of `Profile.findOne({ user })`: the first profile of that user, with its `_id`. -/
def profileFindFrom (user : Nat) : Nat → List Profile → Option (Nat × Profile)
  | _, [] => none
  | i, p :: ps => if p.user = user then some (i, p) else profileFindFrom user (i + 1) ps

/-- Model of `Profile.findOne({ user })` on the collection. -/
def Profile.findOne (db : Store) (user : Nat) : Option (Nat × Profile) :=
  profileFindFrom user 0 db.profiles

/-- Model of `new Profile(doc).save()`. -/
def Profile.create (db : Store) (doc : Profile) : Store :=
  { db with profiles := db.profiles ++ [doc] }

/-- Model of `Profile.deleteOne({ _id })`. -/
def Profile.deleteOne (db : Store) (id : Nat) : Store :=
  { db with profiles := db.profiles.eraseIdx id }

/-! ## Responses -/

/-- Model of `res.status(code).json({ [key]: text })` with the store untouched. -/
def reply (db : Store) (code : Nat) (key text : String) : Result :=
  { db := db, res := { status := code, key := key, text := text } }

/-- The `catch (error)` block: one `console.error`, then the error response. -/
def caught (db : Store) (label : String) (e : Thrown) (code : Nat) (key text : String) :
    Result :=
  { db := db, res := { status := code, key := key, text := text },
    log := [{ label := label, error := e }] }

/-- Cookie options used by both `res.cookie` and `res.clearCookie`. -/
def cookieOptions : CookieOptions :=
  { httpOnly := true, sameSite := "none", secure := false }

/-! ## The handlers of `Controllers/auth.js` -/

/-- Handler `handleSignUp` (auth.js 11-46). -/
def handleSignUp (env : Env) (flt : Faults) (db : Store) (body : SignUpBody) : Result :=
  if falsy body.name || falsy body.email || falsy body.password then
    reply db 400 "message" "All fields are required"
  else if jsLength (str body.password) < 8 then
    reply db 400 "message" "Password must be at least 8 characters long"
  else if flt.userFindOne then
    caught db "Error creating user:" .userFindOne 500 "message" "Server error"
  else
    match User.findOne db (str body.email) with
    | some _ => reply db 400 "message" "Email already in use"
    | none =>
      let hashedPassword := env.hash (str body.password) 10
      if flt.userSave then
        caught db "Error creating user:" .userSave 500 "message" "Server error"
      else
        { db := User.create db
            { name := str body.name, email := str body.email, password := hashedPassword },
          res := { status := 201, key := "message", text := "User created successfully" } }

/-- Handler `handleSignIn` (auth.js 47-92). -/
def handleSignIn (env : Env) (flt : Faults) (db : Store) (body : SignInBody) : Result :=
  if falsy body.email || falsy body.password then
    reply db 400 "message" "All fields are required"
  else if flt.userFindOne then
    caught db "Error during user login:" .userFindOne 500 "message" "Server error"
  else
    match User.findOne db (str body.email) with
    | none => reply db 400 "message" "Invalid email or password!"
    | some (_, existingUser) =>
      if !env.compare (str body.password) existingUser.password then
        reply db 400 "message" "Invalid email or password!"
      else
        let token := env.sign existingUser.name existingUser.email env.SECRET_KEY "24h"
        { db := db,
          res := { status := 200, key := "message", text := "User logged in successfully",
                   cookies := [CookieOp.set "token" token cookieOptions] } }

/-- Handler `handleSignOut` (auth.js 94-107); nothing in its `try` block throws. -/
def handleSignOut (db : Store) : Result :=
  { db := db,
    res := { status := 200, key := "message", text := "User logged out",
             cookies := [CookieOp.clear "Token" cookieOptions] } }

/-- Handler `handleForGetPassword` (auth.js 109-147). -/
def handleForGetPassword (env : Env) (flt : Faults) (db : Store) (email : Option String) :
    Result :=
  if falsy email then
    reply db 400 "error" "Email is required!"
  else if flt.userFindOne then
    caught db "Error in handleForGetPassword:" .userFindOne 500 "error"
      "An error occurred while processing your request"
  else
    match User.findOne db (str email) with
    | none => reply db 404 "error" "User not found"
    | some (_, existingUser) =>
      let token := env.generatePasswordResetToken existingUser.email
      let clientUrl := env.CLIENT_URL ++ "/" ++ token
      let mail : Mail :=
        { toEmail := existingUser.email, link := clientUrl, name := existingUser.name }
      match env.handleEmailService existingUser.email clientUrl existingUser.name with
      | none =>
        { db := db,
          res := { status := 500, key := "error",
                   text := "An error occurred while processing your request" },
          log := [{ label := "Error in handleForGetPassword:", error := .emailService }],
          sent := [mail] }
      | some true =>
        { db := db,
          res := { status := 200, key := "message", text := "Email sent for password reset" },
          sent := [mail] }
      | some false =>
        { db := db,
          res := { status := 500, key := "error", text := "Failed to send email" },
          sent := [mail] }

/-- Handler `handleResetPassword` (auth.js 149-186): `token` is `req.params.token`,
`password` is `req.body.password`. -/
def handleResetPassword (env : Env) (flt : Faults) (db : Store) (token : String)
    (password : Option String) : Result :=
  if token.data.isEmpty then
    reply db 400 "error" "Token is required!"
  else if falsy password then
    reply db 400 "error" "New password is required!"
  else
    match env.verifyPasswordResetToken token with
    | none => caught db "Error resetting password:" .resetToken 500 "error" "Internal Server Error"
    | some email =>
      if flt.userFindOne then
        caught db "Error resetting password:" .userFindOne 500 "error" "Internal Server Error"
      else
        match User.findOne db email with
        | none => reply db 404 "error" "User not found or token is invalid/expired"
        | some (id, existingUser) =>
          let hashedPassword := env.hash (str password) 10
          if flt.userSave then
            caught db "Error resetting password:" .userSave 500 "error" "Internal Server Error"
          else
            { db := User.save db id { existingUser with password := hashedPassword },
              res := { status := 200, key := "message", text := "Password reset successfully." } }

/-- Handler `handleProfilePhotoUpload` (auth.js 188-212): `email` is `req.user.email` as set
by the `VerifyUser` middleware, `image` is `req.body.image`. -/
def handleProfilePhotoUpload (flt : Faults) (db : Store) (email : String)
    (image : Option String) : Result :=
  if flt.userFindOne then
    caught db "Error uploading profile photo:" .userFindOne 500 "error" "Internal Server Error"
  else
    match User.findOne db email with
    | none => reply db 404 "error" "User not found"
    | some (id, _) =>
      if flt.profileSave then
        caught db "Error uploading profile photo:" .profileSave 500 "error"
          "Internal Server Error"
      else
        { db := Profile.create db { user := id, image := image },
          res := { status := 200, key := "message",
                   text := "Profile Image Uploaded Successfully" } }

/-- Handler `handleRemoveProfilePhoto` (auth.js 213-237): `email` is `req.user.email`. -/
def handleRemoveProfilePhoto (flt : Faults) (db : Store) (email : String) : Result :=
  if flt.userFindOne then
    caught db "Error removing profile photo:" .userFindOne 500 "error" "Internal Server Error"
  else
    match User.findOne db email with
    | none => reply db 404 "error" "User not found"
    | some (id, _) =>
      if flt.profileFindOne then
        caught db "Error removing profile photo:" .profileFindOne 500 "error"
          "Internal Server Error"
      else
        match Profile.findOne db id with
        | none => reply db 404 "error" "Profile not found"
        | some (pid, _) =>
          if flt.profileDeleteOne then
            caught db "Error removing profile photo:" .profileDeleteOne 500 "error"
              "Internal Server Error"
          else
            { db := Profile.deleteOne db pid,
              res := { status := 200, key := "message",
                       text := "Profile Image Removed Successfully" } }

/-! ## Concrete data used to evaluate the handlers -/

/-- A stand-in environment: hashes are tagged plaintexts, a reset token is the
email behind a fixed tag, the mail provider always succeeds. -/
def demoEnv : Env :=
  { hash := fun p _ => "$2b$10$" ++ p
    compare := fun p h => decide (h = "$2b$10$" ++ p)
    sign := fun name email key ttl => name ++ "." ++ email ++ "." ++ key ++ "." ++ ttl
    SECRET_KEY := "secret"
    CLIENT_URL := "http://localhost:5173/reset"
    generatePasswordResetToken := fun email => "reset:" ++ email
    verifyPasswordResetToken := fun t =>
      if t.data.take 6 = "reset:".data then some (String.mk (t.data.drop 6)) else none
    handleEmailService := fun _ _ _ => some true }

/-- A store holding the single user Ann and no profile. -/
def annStore : Store :=
  { users := [{ name := "Ann", email := "ann@x.com", password := "$2b$10$password1" }],
    profiles := [] }

/-! ## The client's cookie jar -/

/-- Effect of one `Set-Cookie` on the cookies held by the user agent: cookies are
keyed by their exact (case-sensitive) name. -/
def applyCookieOp (jar : List (String × String)) : CookieOp → List (String × String)
  | CookieOp.set name value _ => (name, value) :: jar.filter (fun c => c.1 ≠ name)
  | CookieOp.clear name _ => jar.filter (fun c => c.1 ≠ name)

/-- Cookies held after the user agent has processed a response. -/
def applyResponse (jar : List (String × String)) (res : Response) : List (String × String) :=
  res.cookies.foldl applyCookieOp jar

/-! ## Sequences of handler calls -/

/-- One call of a credential handler, with the faults of that invocation. -/
inductive AuthCall where
  | signUp (flt : Faults) (body : SignUpBody)
  | signIn (flt : Faults) (body : SignInBody)
  | signOut
  | forGetPassword (flt : Faults) (email : Option String)
  | resetPassword (flt : Faults) (token : String) (password : Option String)

/-- Run one credential handler to completion. -/
def AuthCall.run (env : Env) (db : Store) : AuthCall → Result
  | .signUp flt body => handleSignUp env flt db body
  | .signIn flt body => handleSignIn env flt db body
  | .signOut => handleSignOut db
  | .forGetPassword flt email => handleForGetPassword env flt db email
  | .resetPassword flt token password => handleResetPassword env flt db token password

/-- The store after a sequence of credential handler calls, each run to completion
before the next one starts. -/
def runAuth (env : Env) (db : Store) : List AuthCall → Store
  | [] => db
  | c :: cs => runAuth env (c.run env db).db cs

/-- One call of a profile handler by the authenticated user `email`. -/
inductive ProfileCall where
  | upload (flt : Faults) (email : String) (image : Option String)
  | remove (flt : Faults) (email : String)

/-- Run one profile handler to completion. -/
def ProfileCall.run (db : Store) : ProfileCall → Result
  | .upload flt email image => handleProfilePhotoUpload flt db email image
  | .remove flt email => handleRemoveProfilePhoto flt db email

/-- The store after a sequence of profile handler calls. -/
def runProfile (db : Store) : List ProfileCall → Store
  | [] => db
  | c :: cs => runProfile (c.run db).db cs

/-- Number of profile documents that reference the user `id`. -/
def profileCount (db : Store) (id : Nat) : Nat :=
  (db.profiles.filter (fun p => p.user = id)).length

/-- Every user is referenced by at most one profile document. -/
def AtMostOneProfile (db : Store) : Prop :=
  ∀ id, profileCount db id ≤ 1

/-- The calling discipline under which uploads keep profiles unique: every upload
is made by a caller whose user document has no profile at that moment. -/
def UploadsOnlyWithoutProfile (db : Store) : List ProfileCall → Prop
  | [] => True
  | c :: cs =>
    (match c with
      | .upload _ email _ =>
        ∀ id u, User.findOne db email = some (id, u) → profileCount db id = 0
      | .remove _ _ => True) ∧
    UploadsOnlyWithoutProfile (c.run db).db cs

/-- No two stored users have the same email. -/
def EmailsUnique (db : Store) : Prop :=
  (db.users.map (fun u => u.email)).Nodup

instance (db : Store) : Decidable (EmailsUnique db) :=
  inferInstanceAs (Decidable (List.Nodup _))

/-- No stored user has the empty string as email. -/
def NoBlankEmail (db : Store) : Prop :=
  "" ∉ db.users.map (fun u => u.email)

/-- Every stored password hash is the hash of a password of at least 8 UTF-16
units. -/
def HashesOfLongPasswords (env : Env) (db : Store) : Prop :=
  ∀ u ∈ db.users, ∃ p, 8 ≤ jsLength p ∧ u.password = env.hash p 10

/-! ## Basic facts -/

theorem isEmpty_data_eq_false {s : String} (h : s ≠ "") : s.data.isEmpty = false := by
  cases s with
  | mk l =>
    cases l with
    | nil => exact absurd rfl h
    | cons c cs => rfl

theorem falsy_some_of_ne {s : String} (h : s ≠ "") : falsy (some s) = false :=
  isEmpty_data_eq_false h

theorem ne_empty_of_jsLength_pos {s : String} (h : 0 < jsLength s) : s ≠ "" := by
  intro hs
  subst hs
  simp [jsLength] at h

theorem findOneFrom_eq_none {email : String} {us : List User}
    (h : ∀ u ∈ us, u.email ≠ email) (i : Nat) : findOneFrom email i us = none := by
  induction us generalizing i with
  | nil => rfl
  | cons u us ih =>
    have hu : u.email ≠ email := h u (List.mem_cons_self _ _)
    simp only [findOneFrom, if_neg hu]
    exact ih (fun v hv => h v (List.mem_cons_of_mem _ hv)) (i + 1)

theorem findOneFrom_none_imp {email : String} {us : List User} {i : Nat}
    (h : findOneFrom email i us = none) : ∀ u ∈ us, u.email ≠ email := by
  induction us generalizing i with
  | nil => intro u hu; cases hu
  | cons v vs ih =>
    by_cases hv : v.email = email
    · simp [findOneFrom, hv] at h
    · simp only [findOneFrom, if_neg hv] at h
      intro u hu
      rcases List.mem_cons.mp hu with rfl | hmem
      · exact hv
      · exact ih h u hmem

theorem findOneFrom_append_new {email : String} {us : List User}
    (h : ∀ u ∈ us, u.email ≠ email) (i : Nat) (doc : User) (hdoc : doc.email = email) :
    findOneFrom email i (us ++ [doc]) = some (i + us.length, doc) := by
  induction us generalizing i with
  | nil => simp [findOneFrom, hdoc]
  | cons u us ih =>
    have hu : u.email ≠ email := h u (List.mem_cons_self _ _)
    have step := ih (fun v hv => h v (List.mem_cons_of_mem _ hv)) (i + 1)
    rw [List.cons_append]
    simp only [findOneFrom, if_neg hu, List.length_cons, step]
    congr 2
    omega

theorem findOneFrom_isSome {email : String} {us : List User}
    (h : ∃ u ∈ us, u.email = email) (i : Nat) :
    ∃ j u, findOneFrom email i us = some (j, u) := by
  induction us generalizing i with
  | nil => obtain ⟨u, hu, _⟩ := h; cases hu
  | cons v vs ih =>
    by_cases hv : v.email = email
    · exact ⟨i, v, by simp [findOneFrom, hv]⟩
    · obtain ⟨u, hu, hue⟩ := h
      rcases List.mem_cons.mp hu with rfl | hmem
      · exact absurd hue hv
      · simp only [findOneFrom, if_neg hv]
        exact ih ⟨u, hmem, hue⟩ (i + 1)

/-- What `findOneFrom` returns is a document of the list at the returned index,
with the email asked for. -/
theorem findOneFrom_some {email : String} {us : List User} {i j : Nat} {u : User}
    (h : findOneFrom email i us = some (j, u)) :
    u.email = email ∧ i ≤ j ∧ us[j - i]? = some u := by
  induction us generalizing i with
  | nil => simp [findOneFrom] at h
  | cons v vs ih =>
    by_cases hv : v.email = email
    · simp only [findOneFrom, if_pos hv, Option.some.injEq, Prod.mk.injEq] at h
      obtain ⟨rfl, rfl⟩ := h
      simp [hv]
    · simp only [findOneFrom, if_neg hv] at h
      obtain ⟨h1, h2, h3⟩ := ih h
      refine ⟨h1, by omega, ?_⟩
      have : j - i = (j - (i + 1)) + 1 := by omega
      rw [this, List.getElem?_cons_succ]
      exact h3

/-- Saving a document with the same email at the index `findOneFrom` returned makes
the lookup return that document. -/
theorem findOneFrom_set {email : String} {us : List User} {i j : Nat} {u : User}
    (h : findOneFrom email i us = some (j, u)) (doc : User) (hdoc : doc.email = email) :
    findOneFrom email i (us.set (j - i) doc) = some (j, doc) := by
  induction us generalizing i with
  | nil => simp [findOneFrom] at h
  | cons v vs ih =>
    by_cases hv : v.email = email
    · simp only [findOneFrom, if_pos hv, Option.some.injEq, Prod.mk.injEq] at h
      obtain ⟨rfl, rfl⟩ := h
      simp [findOneFrom, hdoc]
    · simp only [findOneFrom, if_neg hv] at h
      have hle := (findOneFrom_some h).2.1
      have hidx : j - i = (j - (i + 1)) + 1 := by omega
      rw [hidx, List.set_cons_succ]
      simp only [findOneFrom, if_neg hv]
      exact ih h

/-- Replacing a document by one with the same email leaves the emails as they were. -/
theorem map_email_set {us : List User} {id : Nat} {u doc : User}
    (h : us[id]? = some u) (hdoc : doc.email = u.email) :
    (us.set id doc).map (fun v => v.email) = us.map (fun v => v.email) := by
  induction us generalizing id with
  | nil => rfl
  | cons v vs ih =>
    cases id with
    | zero =>
      simp only [List.getElem?_cons_zero, Option.some.injEq] at h
      subst h
      simp [hdoc]
    | succ n =>
      simp only [List.getElem?_cons_succ] at h
      simp only [List.set_cons_succ, List.map_cons, ih h]

/-! ## Sign-up and sign-in -/

/-- C1: for every store and every sign-up body with non-empty name, non-empty
email held by no stored user and a password of at least 8 UTF-16 units, when no
store operation fails `handleSignUp` answers 201 and appends the user with the
hashed password; `handleSignIn` on the resulting store with the same email and
password answers 200 and sets the cookie `token` to the signed session token,
provided the hasher verifies the password against its own hash. -/
theorem signUp_then_signIn (env : Env) (flt flt2 : Faults) (db : Store)
    (name email password : String)
    (hname : name ≠ "") (hemail : email ≠ "") (hlen : 8 ≤ jsLength password)
    (hfree : ∀ u ∈ db.users, u.email ≠ email)
    (hfind : flt.userFindOne = false) (hsave : flt.userSave = false)
    (hfind2 : flt2.userFindOne = false)
    (hverify : env.compare password (env.hash password 10) = true) :
    (handleSignUp env flt db ⟨some name, some email, some password⟩).res.status = 201 ∧
    (handleSignUp env flt db ⟨some name, some email, some password⟩).db =
      { db with users := db.users ++ [⟨name, email, env.hash password 10⟩] } ∧
    (handleSignIn env flt2 (handleSignUp env flt db ⟨some name, some email, some password⟩).db
      ⟨some email, some password⟩).res.status = 200 ∧
    (handleSignIn env flt2 (handleSignUp env flt db ⟨some name, some email, some password⟩).db
      ⟨some email, some password⟩).res.cookies =
      [CookieOp.set "token" (env.sign name email env.SECRET_KEY "24h") cookieOptions] := by
  have hpw : password ≠ "" := ne_empty_of_jsLength_pos (by omega)
  have hup : handleSignUp env flt db ⟨some name, some email, some password⟩ =
      { db := { db with users := db.users ++ [⟨name, email, env.hash password 10⟩] },
        res := { status := 201, key := "message", text := "User created successfully" } } := by
    simp [handleSignUp, falsy_some_of_ne hname, falsy_some_of_ne hemail, falsy_some_of_ne hpw,
      str, Nat.not_lt.mpr hlen, hfind, hsave, User.findOne, findOneFrom_eq_none hfree,
      User.create]
  have hin : findOneFrom email 0 (db.users ++ [⟨name, email, env.hash password 10⟩]) =
      some (0 + db.users.length, ⟨name, email, env.hash password 10⟩) :=
    findOneFrom_append_new hfree 0 _ rfl
  rw [hup]
  refine ⟨rfl, rfl, ?_, ?_⟩ <;>
    simp [handleSignIn, falsy_some_of_ne hemail, falsy_some_of_ne hpw, str, hfind2,
      User.findOne, hin, hverify]

/-- Witness of C1 on the empty store with Ann's credentials. -/
theorem signUp_then_signIn_witness :
    (handleSignUp demoEnv {} ⟨[], []⟩
      ⟨some "Ann", some "ann@x.com", some "password1"⟩).res.status = 201 ∧
    (handleSignIn demoEnv {} (handleSignUp demoEnv {} ⟨[], []⟩
      ⟨some "Ann", some "ann@x.com", some "password1"⟩).db
      ⟨some "ann@x.com", some "password1"⟩).res.status = 200 :=
  have h := signUp_then_signIn demoEnv {} {} ⟨[], []⟩ "Ann" "ann@x.com" "password1"
    (by decide) (by decide) (by decide) (by decide) rfl rfl rfl (by decide)
  ⟨h.1, h.2.2.1⟩

/-- C2 fails as stated: with Ann stored, a sign-up reusing her email while the
store lookup rejects is answered 500, not 400. -/
theorem signUp_duplicate_lookup_failure :
    (∃ u ∈ annStore.users, (some "ann@x.com" : Option String) = some u.email) ∧
    (handleSignUp demoEnv { userFindOne := true } annStore
      ⟨some "Bob", some "ann@x.com", some "password2"⟩).res.status = 500 ∧
    (handleSignUp demoEnv { userFindOne := true } annStore
      ⟨some "Bob", some "ann@x.com", some "password2"⟩).res.status ≠ 400 := by
  decide

/-- C2, amended: for every store and every sign-up body whose email is the email of
a stored user, whatever name and password are (absent, empty, short or long),
`handleSignUp` never answers 201 and leaves the store unchanged, and it answers 400
whenever the store lookup does not fail. -/
theorem signUp_duplicate_email (env : Env) (flt : Faults) (db : Store)
    (name password : Option String) (email : String)
    (hdup : ∃ u ∈ db.users, u.email = email) :
    (handleSignUp env flt db ⟨name, some email, password⟩).res.status ≠ 201 ∧
    (handleSignUp env flt db ⟨name, some email, password⟩).db = db ∧
    (flt.userFindOne = false →
      (handleSignUp env flt db ⟨name, some email, password⟩).res.status = 400) := by
  obtain ⟨j, u, hju⟩ := findOneFrom_isSome hdup 0
  unfold handleSignUp
  simp only [str]
  split
  · simp [reply]
  · split
    · simp [reply]
    · split
      · rename_i hf
        simp [caught, hf]
      · simp [User.findOne, hju, reply]

/-- Witness of amended C2: Bob reuses Ann's email. -/
theorem signUp_duplicate_email_witness :
    (handleSignUp demoEnv {} annStore
      ⟨some "Bob", some "ann@x.com", some "password2"⟩).res.status ≠ 201 ∧
    (handleSignUp demoEnv {} annStore
      ⟨some "Bob", some "ann@x.com", some "password2"⟩).db = annStore ∧
    (({} : Faults).userFindOne = false →
      (handleSignUp demoEnv {} annStore
        ⟨some "Bob", some "ann@x.com", some "password2"⟩).res.status = 400) :=
  signUp_duplicate_email demoEnv {} annStore (some "Bob") (some "password2") "ann@x.com"
    (by decide)

/-- C3 fails as stated: a sign-in with an unknown email and an empty password and
a sign-in with Ann's email and a wrong password are both answered 400, but with
different message texts. -/
theorem signIn_messages_differ :
    (∀ u ∈ annStore.users, u.email ≠ "ghost@x.com") ∧
    User.findOne annStore "ann@x.com" = some (0, ⟨"Ann", "ann@x.com", "$2b$10$password1"⟩) ∧
    demoEnv.compare "wrong" "$2b$10$password1" = false ∧
    (handleSignIn demoEnv {} annStore ⟨some "ghost@x.com", some ""⟩).res =
      { status := 400, key := "message", text := "All fields are required" } ∧
    (handleSignIn demoEnv {} annStore ⟨some "ann@x.com", some "wrong"⟩).res =
      { status := 400, key := "message", text := "Invalid email or password!" } ∧
    (handleSignIn demoEnv {} annStore ⟨some "ghost@x.com", some ""⟩).res.text ≠
      (handleSignIn demoEnv {} annStore ⟨some "ann@x.com", some "wrong"⟩).res.text := by
  decide

/-- C3, amended: for every store and every pair of sign-in requests whose email and
password are both non-empty, one with an email no stored user has, the other with
the email of a stored user and a password that does not verify against that
user's hash, when the store lookup does not fail `handleSignIn` gives both the
same response: status 400, text `Invalid email or password!`, no cookie; the
store is left unchanged. -/
theorem signIn_same_rejection (env : Env) (flt1 flt2 : Faults) (db : Store)
    (e1 p1 e2 p2 : String) (id : Nat) (u : User)
    (he1 : e1 ≠ "") (hp1 : p1 ≠ "") (he2 : e2 ≠ "") (hp2 : p2 ≠ "")
    (hfind1 : flt1.userFindOne = false) (hfind2 : flt2.userFindOne = false)
    (hunknown : ∀ v ∈ db.users, v.email ≠ e1)
    (hknown : User.findOne db e2 = some (id, u))
    (hwrong : env.compare p2 u.password = false) :
    (handleSignIn env flt1 db ⟨some e1, some p1⟩).res =
      (handleSignIn env flt2 db ⟨some e2, some p2⟩).res ∧
    (handleSignIn env flt1 db ⟨some e1, some p1⟩).res =
      { status := 400, key := "message", text := "Invalid email or password!" } ∧
    (handleSignIn env flt1 db ⟨some e1, some p1⟩).db = db ∧
    (handleSignIn env flt2 db ⟨some e2, some p2⟩).db = db := by
  have h1 : handleSignIn env flt1 db ⟨some e1, some p1⟩ =
      reply db 400 "message" "Invalid email or password!" := by
    simp [handleSignIn, falsy_some_of_ne he1, falsy_some_of_ne hp1, str, hfind1,
      User.findOne, findOneFrom_eq_none hunknown]
  have h2 : handleSignIn env flt2 db ⟨some e2, some p2⟩ =
      reply db 400 "message" "Invalid email or password!" := by
    simp [handleSignIn, falsy_some_of_ne he2, falsy_some_of_ne hp2, str, hfind2,
      hknown, hwrong]
  rw [h1, h2]
  exact ⟨rfl, rfl, rfl, rfl⟩

/-- Witness of amended C3 on the store holding Ann. -/
theorem signIn_same_rejection_witness :
    (handleSignIn demoEnv {} annStore ⟨some "ghost@x.com", some "password1"⟩).res =
      (handleSignIn demoEnv {} annStore ⟨some "ann@x.com", some "wrong"⟩).res :=
  (signIn_same_rejection demoEnv {} {} annStore "ghost@x.com" "password1" "ann@x.com" "wrong"
    0 ⟨"Ann", "ann@x.com", "$2b$10$password1"⟩
    (by decide) (by decide) (by decide) (by decide) rfl rfl (by decide) (by decide)
    (by decide)).1

/-! ## Sign-out -/

/-- C4 on the code: after Ann signs in, the response sets the cookie `token`; the
sign-out response answers 200 but clears a cookie named `Token`, so a user agent
that held no cookie before still holds the session cookie afterwards. -/
theorem signOut_leaves_session_cookie :
    (handleSignIn demoEnv {} annStore ⟨some "ann@x.com", some "password1"⟩).res.cookies =
      [CookieOp.set "token" "Ann.ann@x.com.secret.24h" cookieOptions] ∧
    (handleSignOut annStore).res.status = 200 ∧
    (handleSignOut annStore).res.cookies = [CookieOp.clear "Token" cookieOptions] ∧
    applyResponse
      (applyResponse []
        (handleSignIn demoEnv {} annStore ⟨some "ann@x.com", some "password1"⟩).res)
      (handleSignOut annStore).res = [("token", "Ann.ann@x.com.secret.24h")] := by
  decide

/-! ## Password reset -/

/-- C5: for every store holding a user with email `E`, every reset token that
verifies to `E` and every non-empty new password `p`, when no store operation
fails `handleResetPassword` answers 200 and replaces the password of the user found
for `E` by `hash p 10`, nothing else; the following `handleSignIn` with `(E, p)`
answers 200, provided the hasher verifies `p` against its own hash. The email and
the token are the non-empty strings the handlers deal in: the route
`/resetpassword/:token` binds a non-empty token, and no stored email is empty in a
store the handlers have filled (`noBlankEmail_invariant`). -/
theorem reset_then_signIn (env : Env) (flt flt2 : Faults) (db : Store)
    (E token p : String)
    (hE : E ≠ "") (htoken : token ≠ "") (hp : p ≠ "")
    (hmem : ∃ u ∈ db.users, u.email = E)
    (htok : env.verifyPasswordResetToken token = some E)
    (hfind : flt.userFindOne = false) (hsave : flt.userSave = false)
    (hfind2 : flt2.userFindOne = false)
    (hverify : env.compare p (env.hash p 10) = true) :
    ∃ id u, User.findOne db E = some (id, u) ∧
      handleResetPassword env flt db token (some p) =
        { db := { db with users := db.users.set id { u with password := env.hash p 10 } },
          res := { status := 200, key := "message", text := "Password reset successfully." } } ∧
      (handleSignIn env flt2 (handleResetPassword env flt db token (some p)).db
        ⟨some E, some p⟩).res.status = 200 := by
  obtain ⟨id, u, hfound⟩ := findOneFrom_isSome hmem 0
  have hue : u.email = E := (findOneFrom_some hfound).1
  have hreset : handleResetPassword env flt db token (some p) =
      { db := { db with users := db.users.set id { u with password := env.hash p 10 } },
        res := { status := 200, key := "message", text := "Password reset successfully." } } := by
    simp [handleResetPassword, isEmpty_data_eq_false htoken, falsy_some_of_ne hp, htok,
      hfind, hsave, User.findOne, hfound, str, User.save]
  have hagain := findOneFrom_set hfound { u with password := env.hash p 10 } hue
  rw [Nat.sub_zero] at hagain
  refine ⟨id, u, hfound, hreset, ?_⟩
  rw [hreset]
  simp [handleSignIn, falsy_some_of_ne hE, falsy_some_of_ne hp, str, hfind2, User.findOne,
    hagain, hverify]

/-- Witness of C5: Ann resets her password and signs in with the new one. -/
theorem reset_then_signIn_witness :
    ∃ id u, User.findOne annStore "ann@x.com" = some (id, u) ∧
      handleResetPassword demoEnv {} annStore "reset:ann@x.com" (some "newpassword1") =
        { db := { annStore with
                  users := annStore.users.set id
                    { u with password := demoEnv.hash "newpassword1" 10 } },
          res := { status := 200, key := "message", text := "Password reset successfully." } } ∧
      (handleSignIn demoEnv {}
        (handleResetPassword demoEnv {} annStore "reset:ann@x.com" (some "newpassword1")).db
        ⟨some "ann@x.com", some "newpassword1"⟩).res.status = 200 :=
  reset_then_signIn demoEnv {} {} annStore "ann@x.com" "reset:ann@x.com" "newpassword1"
    (by decide) (by decide) (by decide) (by decide) (by decide) rfl rfl rfl (by decide)

/-- C6: for every store, every non-empty token whose verification throws and every
non-empty new password, `handleResetPassword` answers the generic 500 (neither 400
nor 404), whatever the store would have done, logs the caught error and leaves the
store, hence every stored password hash, unchanged. -/
theorem reset_invalid_token (env : Env) (flt : Faults) (db : Store) (token p : String)
    (htoken : token ≠ "") (hp : p ≠ "")
    (hthrows : env.verifyPasswordResetToken token = none) :
    (handleResetPassword env flt db token (some p)).res =
      { status := 500, key := "error", text := "Internal Server Error" } ∧
    (handleResetPassword env flt db token (some p)).res.status ≠ 400 ∧
    (handleResetPassword env flt db token (some p)).res.status ≠ 404 ∧
    (handleResetPassword env flt db token (some p)).db = db ∧
    (handleResetPassword env flt db token (some p)).log =
      [{ label := "Error resetting password:", error := Thrown.resetToken }] := by
  have h : handleResetPassword env flt db token (some p) =
      caught db "Error resetting password:" Thrown.resetToken 500 "error"
        "Internal Server Error" := by
    simp [handleResetPassword, isEmpty_data_eq_false htoken, falsy_some_of_ne hp, hthrows]
  rw [h]
  simp [caught]

/-- Witness of C6: a token without the expected tag on the store holding Ann. -/
theorem reset_invalid_token_witness :
    (handleResetPassword demoEnv {} annStore "tampered" (some "newpassword1")).res =
      { status := 500, key := "error", text := "Internal Server Error" } ∧
    (handleResetPassword demoEnv {} annStore "tampered" (some "newpassword1")).db = annStore :=
  have h := reset_invalid_token demoEnv {} annStore "tampered" "newpassword1"
    (by decide) (by decide) (by decide)
  ⟨h.1, h.2.2.2.1⟩

/-! ## What reaches the store and the log -/

/-- What `handleSignUp` leaves in the store and the log: the store is unchanged or
has gained one user whose password field is `hash p 10` for the submitted
password `p`; the log is empty or one call with the fixed label and the caught
error. -/
theorem handleSignUp_effects (env : Env) (flt : Faults) (db : Store) (body : SignUpBody) :
    ((handleSignUp env flt db body).db = db ∨
      ∃ name email p, body = ⟨some name, some email, some p⟩ ∧
        (handleSignUp env flt db body).db =
          { db with users := db.users ++ [⟨name, email, env.hash p 10⟩] }) ∧
    ((handleSignUp env flt db body).log = [] ∨
      ∃ e, (handleSignUp env flt db body).log = [⟨"Error creating user:", e⟩]) := by
  obtain ⟨name, email, password⟩ := body
  cases name with
  | none => simp [handleSignUp, falsy, reply]
  | some name =>
    cases email with
    | none => simp [handleSignUp, falsy, reply]
    | some email =>
      cases password with
      | none => simp [handleSignUp, falsy, reply]
      | some p =>
        unfold handleSignUp
        repeat' (first | split | dsimp only)
        all_goals first
          | exact ⟨Or.inl rfl, Or.inl rfl⟩
          | exact ⟨Or.inl rfl, Or.inr ⟨_, rfl⟩⟩
          | exact ⟨Or.inr ⟨_, _, _, rfl, rfl⟩, Or.inl rfl⟩

/-- What `handleResetPassword` leaves in the store and the log: the store is
unchanged or one stored user has its password field replaced by `hash p 10` for
the submitted password `p`; the log is empty or one call with the fixed label and
the caught error. -/
theorem handleResetPassword_effects (env : Env) (flt : Faults) (db : Store) (token : String)
    (password : Option String) :
    ((handleResetPassword env flt db token password).db = db ∨
      ∃ p id u, password = some p ∧ db.users[id]? = some u ∧
        (handleResetPassword env flt db token password).db =
          { db with users := db.users.set id { u with password := env.hash p 10 } }) ∧
    ((handleResetPassword env flt db token password).log = [] ∨
      ∃ e, (handleResetPassword env flt db token password).log =
        [⟨"Error resetting password:", e⟩]) := by
  cases password with
  | none =>
    unfold handleResetPassword
    split
    · exact ⟨Or.inl rfl, Or.inl rfl⟩
    · simp [falsy, reply]
  | some p =>
    unfold handleResetPassword
    repeat' (first | split | dsimp only)
    all_goals first
      | exact ⟨Or.inl rfl, Or.inl rfl⟩
      | exact ⟨Or.inl rfl, Or.inr ⟨_, rfl⟩⟩
      | (rename_i id u hfound _
         exact ⟨Or.inr ⟨p, id, u, rfl, (findOneFrom_some hfound).2.2, rfl⟩, Or.inl rfl⟩)

/-- Sign-in never writes to the store. -/
theorem handleSignIn_db (env : Env) (flt : Faults) (db : Store)
    (cred : SignInBody) : (handleSignIn env flt db cred).db = db := by
  unfold handleSignIn
  repeat' (first | split | dsimp only)
  all_goals rfl

/-- The forgot-password handler never writes to the store. -/
theorem handleForGetPassword_db (env : Env) (flt : Faults) (db : Store)
    (mail : Option String) : (handleForGetPassword env flt db mail).db = db := by
  unfold handleForGetPassword
  repeat' (first | split | dsimp only)
  all_goals rfl

/-- C7: in every execution of every handler, the stored users are left as they were
or (`handleSignUp`, `handleResetPassword`) exactly one password field is written,
with the hasher's output at cost factor 10 for the submitted password; every
`console.error` call carries the handler's fixed label and the caught error, never a
request field. -/
theorem password_only_hashed_never_logged (env : Env) (flt : Faults) (db : Store)
    (up : SignUpBody) (cred : SignInBody) (mail : Option String) (token : String)
    (password : Option String) (who : String) (image : Option String) :
    (((handleSignUp env flt db up).db = db ∨
        ∃ name email p, up = ⟨some name, some email, some p⟩ ∧
          (handleSignUp env flt db up).db =
            { db with users := db.users ++ [⟨name, email, env.hash p 10⟩] }) ∧
      ((handleSignUp env flt db up).log = [] ∨
        ∃ e, (handleSignUp env flt db up).log = [⟨"Error creating user:", e⟩])) ∧
    (((handleResetPassword env flt db token password).db = db ∨
        ∃ p id u, password = some p ∧ db.users[id]? = some u ∧
          (handleResetPassword env flt db token password).db =
            { db with users := db.users.set id { u with password := env.hash p 10 } }) ∧
      ((handleResetPassword env flt db token password).log = [] ∨
        ∃ e, (handleResetPassword env flt db token password).log =
          [⟨"Error resetting password:", e⟩])) ∧
    ((handleSignIn env flt db cred).db = db ∧
      ((handleSignIn env flt db cred).log = [] ∨
        ∃ e, (handleSignIn env flt db cred).log = [⟨"Error during user login:", e⟩])) ∧
    ((handleSignOut db).db = db ∧ (handleSignOut db).log = []) ∧
    ((handleForGetPassword env flt db mail).db = db ∧
      ((handleForGetPassword env flt db mail).log = [] ∨
        ∃ e, (handleForGetPassword env flt db mail).log =
          [⟨"Error in handleForGetPassword:", e⟩])) ∧
    ((handleProfilePhotoUpload flt db who image).db.users = db.users ∧
      ((handleProfilePhotoUpload flt db who image).log = [] ∨
        ∃ e, (handleProfilePhotoUpload flt db who image).log =
          [⟨"Error uploading profile photo:", e⟩])) ∧
    ((handleRemoveProfilePhoto flt db who).db.users = db.users ∧
      ((handleRemoveProfilePhoto flt db who).log = [] ∨
        ∃ e, (handleRemoveProfilePhoto flt db who).log =
          [⟨"Error removing profile photo:", e⟩])) := by
  refine ⟨handleSignUp_effects env flt db up,
    handleResetPassword_effects env flt db token password, ?_, ⟨rfl, rfl⟩, ?_, ?_, ?_⟩
  · unfold handleSignIn
    repeat' (first | split | dsimp only)
    all_goals first
      | exact ⟨rfl, Or.inl rfl⟩
      | exact ⟨rfl, Or.inr ⟨_, rfl⟩⟩
  · unfold handleForGetPassword
    repeat' (first | split | dsimp only)
    all_goals first
      | exact ⟨rfl, Or.inl rfl⟩
      | exact ⟨rfl, Or.inr ⟨_, rfl⟩⟩
  · unfold handleProfilePhotoUpload
    repeat' (first | split | dsimp only)
    all_goals first
      | exact ⟨rfl, Or.inl rfl⟩
      | exact ⟨rfl, Or.inr ⟨_, rfl⟩⟩
  · unfold handleRemoveProfilePhoto
    repeat' (first | split | dsimp only)
    all_goals first
      | exact ⟨rfl, Or.inl rfl⟩
      | exact ⟨rfl, Or.inr ⟨_, rfl⟩⟩

/-! ## Email uniqueness -/

/-- Sign-up keeps emails unique: a user is only appended after the lookup found
no document with that email. -/
theorem handleSignUp_emailsUnique (env : Env) (flt : Faults) (db : Store) (body : SignUpBody)
    (h : EmailsUnique db) : EmailsUnique (handleSignUp env flt db body).db := by
  unfold handleSignUp
  repeat' (first | split | dsimp only)
  all_goals first
    | exact h
    | (rename_i hnone _
       have hfree := findOneFrom_none_imp hnone
       unfold EmailsUnique User.create
       simp only [List.map_append, List.map_cons, List.map_nil]
       refine List.Nodup.append h (List.nodup_singleton _) ?_
       intro e he1 he2
       rw [List.mem_singleton] at he2
       obtain ⟨u, hu, hue⟩ := List.mem_map.mp he1
       exact hfree u hu (hue.trans he2))

/-- Password reset keeps the emails as they are. -/
theorem handleResetPassword_emails (env : Env) (flt : Faults) (db : Store) (token : String)
    (password : Option String) :
    (handleResetPassword env flt db token password).db.users.map (fun u => u.email) =
      db.users.map (fun u => u.email) := by
  rcases (handleResetPassword_effects env flt db token password).1 with h | ⟨p, id, u, _, hget, h⟩
  · rw [h]
  · rw [h]
    exact map_email_set hget rfl

/-- One credential handler call keeps emails unique. -/
theorem AuthCall.run_emailsUnique (env : Env) (db : Store) (c : AuthCall)
    (h : EmailsUnique db) : EmailsUnique (c.run env db).db := by
  cases c with
  | signUp flt body => exact handleSignUp_emailsUnique env flt db body h
  | signIn flt body =>
    have := (handleSignIn_db env flt db body)
    rw [AuthCall.run, this]
    exact h
  | signOut => exact h
  | forGetPassword flt email =>
    have := (handleForGetPassword_db env flt db email)
    rw [AuthCall.run, this]
    exact h
  | resetPassword flt token password =>
    unfold EmailsUnique
    rw [AuthCall.run, handleResetPassword_emails]
    exact h

/-- C8: starting from a store in which no two users have the same email, after any
finite sequence of `handleSignUp`, `handleSignIn`, `handleSignOut`,
`handleForGetPassword` and `handleResetPassword` calls, each run to completion
before the next, with any faults, no two stored users have the same email. -/
theorem emailsUnique_invariant (env : Env) (db : Store) (calls : List AuthCall)
    (h : EmailsUnique db) : EmailsUnique (runAuth env db calls) := by
  induction calls generalizing db with
  | nil => exact h
  | cons c cs ih => exact ih (c.run env db).db (AuthCall.run_emailsUnique env db c h)

/-- Witness of C8: a run of all five handlers from the store holding Ann. -/
theorem emailsUnique_invariant_witness :
    EmailsUnique annStore ∧
    EmailsUnique (runAuth demoEnv annStore
      [AuthCall.signUp {} ⟨some "Bob", some "bob@x.com", some "password2"⟩,
       AuthCall.signUp {} ⟨some "Eve", some "ann@x.com", some "password3"⟩,
       AuthCall.signIn {} ⟨some "bob@x.com", some "password2"⟩,
       AuthCall.forGetPassword {} (some "ann@x.com"),
       AuthCall.resetPassword {} "reset:ann@x.com" (some "newpassword1"),
       AuthCall.signOut]) :=
  ⟨by decide, emailsUnique_invariant demoEnv annStore _ (by decide)⟩

/-! ## Stored emails are non-empty -/

/-- Sign-up never stores an empty email: the field guard comes first. -/
theorem handleSignUp_noBlankEmail (env : Env) (flt : Faults) (db : Store) (body : SignUpBody)
    (h : NoBlankEmail db) : NoBlankEmail (handleSignUp env flt db body).db := by
  obtain ⟨name, email, password⟩ := body
  cases email with
  | none =>
    have hdb : (handleSignUp env flt db ⟨name, none, password⟩).db = db := by
      simp [handleSignUp, falsy, reply]
    rw [hdb]
    exact h
  | some email =>
    by_cases he : email = ""
    · have hdb : (handleSignUp env flt db ⟨name, some email, password⟩).db = db := by
        subst he
        simp [handleSignUp, falsy, reply]
      rw [hdb]
      exact h
    · unfold handleSignUp
      repeat' (first | split | dsimp only)
      all_goals first
        | exact h
        | (unfold NoBlankEmail User.create
           simp only [List.map_append, List.map_cons, List.map_nil, List.mem_append,
             List.mem_singleton, str, not_or]
           exact ⟨h, fun hb => he hb.symm⟩)

/-- One credential handler call stores no empty email. -/
theorem AuthCall.run_noBlankEmail (env : Env) (db : Store) (c : AuthCall)
    (h : NoBlankEmail db) : NoBlankEmail (c.run env db).db := by
  cases c with
  | signUp flt body => exact handleSignUp_noBlankEmail env flt db body h
  | signIn flt body =>
    rw [AuthCall.run, handleSignIn_db]
    exact h
  | signOut => exact h
  | forGetPassword flt email =>
    rw [AuthCall.run, handleForGetPassword_db]
    exact h
  | resetPassword flt token password =>
    unfold NoBlankEmail
    rw [AuthCall.run, handleResetPassword_emails]
    exact h

/-- In every store the credential handlers produce from one without empty emails
(the empty store for instance), no stored email is empty. -/
theorem noBlankEmail_invariant (env : Env) (db : Store) (calls : List AuthCall)
    (h : NoBlankEmail db) : NoBlankEmail (runAuth env db calls) := by
  induction calls generalizing db with
  | nil => exact h
  | cons c cs ih => exact ih (c.run env db).db (AuthCall.run_noBlankEmail env db c h)

/-! ## Profiles -/

theorem profileCount_create (db : Store) (doc : Profile) (k : Nat) :
    profileCount (Profile.create db doc) k =
      profileCount db k + (if doc.user = k then 1 else 0) := by
  unfold profileCount Profile.create
  by_cases h : doc.user = k <;> simp [List.filter_append, List.filter_cons, h]

theorem profileCount_deleteOne_le (db : Store) (pid k : Nat) :
    profileCount (Profile.deleteOne db pid) k ≤ profileCount db k := by
  unfold profileCount Profile.deleteOne
  exact ((List.eraseIdx_sublist db.profiles pid).filter _).length_le

/-- Removal never raises a user's number of profiles. -/
theorem handleRemoveProfilePhoto_count_le (flt : Faults) (db : Store) (email : String)
    (k : Nat) :
    profileCount (handleRemoveProfilePhoto flt db email).db k ≤ profileCount db k := by
  unfold handleRemoveProfilePhoto
  repeat' (first | split | dsimp only)
  all_goals first
    | exact Nat.le_refl _
    | exact profileCount_deleteOne_le db _ k

/-- An upload by a caller whose user document has no profile keeps profiles
unique. -/
theorem handleProfilePhotoUpload_atMostOne (flt : Faults) (db : Store) (email : String)
    (image : Option String) (h : AtMostOneProfile db)
    (hnone : ∀ id u, User.findOne db email = some (id, u) → profileCount db id = 0) :
    AtMostOneProfile (handleProfilePhotoUpload flt db email image).db := by
  unfold handleProfilePhotoUpload
  repeat' (first | split | dsimp only)
  all_goals first
    | exact h
    | (rename_i id u hfound _
       intro k
       rw [profileCount_create]
       have h0 := hnone id u hfound
       have hk := h k
       by_cases hid : id = k
       · subst hid
         simp [h0]
       · simp [hid, hk])

/-- C9 fails as stated: from the store holding Ann and no profile, two uploads by
the authenticated Ann are both answered 200 and leave two profile documents that
reference her. -/
theorem two_uploads_two_profiles :
    annStore.profiles = [] ∧
    (handleProfilePhotoUpload {} annStore "ann@x.com" (some "a.png")).res.status = 200 ∧
    (handleProfilePhotoUpload {}
      (handleProfilePhotoUpload {} annStore "ann@x.com" (some "a.png")).db
      "ann@x.com" (some "b.png")).res.status = 200 ∧
    profileCount (runProfile annStore
      [ProfileCall.upload {} "ann@x.com" (some "a.png"),
       ProfileCall.upload {} "ann@x.com" (some "b.png")]) 0 = 2 ∧
    ¬ AtMostOneProfile (runProfile annStore
      [ProfileCall.upload {} "ann@x.com" (some "a.png"),
       ProfileCall.upload {} "ann@x.com" (some "b.png")]) := by
  refine ⟨rfl, by decide, by decide, by decide, ?_⟩
  intro h
  exact absurd (h 0) (by decide)

/-- C9, amended: starting from a store in which every user has at most one profile
(in particular from a store with no profiles), after any finite sequence of
`handleProfilePhotoUpload` and `handleRemoveProfilePhoto` calls by authenticated
users in which every upload is made while the caller's user document has no
profile, every user has at most one profile document referencing it. -/
theorem atMostOneProfile_invariant (db : Store) (calls : List ProfileCall)
    (h : AtMostOneProfile db) (hcalls : UploadsOnlyWithoutProfile db calls) :
    AtMostOneProfile (runProfile db calls) := by
  induction calls generalizing db with
  | nil => exact h
  | cons c cs ih =>
    obtain ⟨hc, hrest⟩ := hcalls
    refine ih (c.run db).db ?_ hrest
    cases c with
    | upload flt email image => exact handleProfilePhotoUpload_atMostOne flt db email image h hc
    | remove flt email =>
      intro k
      exact Nat.le_trans (handleRemoveProfilePhoto_count_le flt db email k) (h k)

/-- Witness of amended C9: Ann uploads, removes and uploads again. -/
theorem atMostOneProfile_invariant_witness :
    AtMostOneProfile (runProfile annStore
      [ProfileCall.upload {} "ann@x.com" (some "a.png"),
       ProfileCall.remove {} "ann@x.com",
       ProfileCall.upload {} "ann@x.com" (some "b.png")]) :=
  atMostOneProfile_invariant annStore _
    (fun id => by simp [profileCount, annStore])
    (by
      refine ⟨?_, trivial, ?_, trivial⟩
      · intro id u _
        rfl
      · intro id u _
        rfl)

/-! ## Password length at reset -/

theorem string_append_left_cancel {a b c : String} (h : a ++ b = a ++ c) : b = c := by
  have hd : (a ++ b).data = (a ++ c).data := by rw [h]
  rw [String.data_append, String.data_append] at hd
  exact String.ext (List.append_cancel_left hd)

/-- Sign-up answers 400 and writes nothing when the password has fewer than 8
UTF-16 units or is absent. -/
theorem handleSignUp_short_password (env : Env) (flt : Faults) (db : Store)
    (name email password : Option String) (hshort : jsLength (str password) < 8) :
    (handleSignUp env flt db ⟨name, email, password⟩).res.status = 400 ∧
    (handleSignUp env flt db ⟨name, email, password⟩).db = db := by
  simp only [handleSignUp]
  split
  · exact ⟨rfl, rfl⟩
  · simp [hshort, reply]

/-- Sign-up only ever stores the hash of a password of at least 8 UTF-16 units. -/
theorem handleSignUp_hashesOfLongPasswords (env : Env) (flt : Faults) (db : Store)
    (body : SignUpBody) (h : HashesOfLongPasswords env db) :
    HashesOfLongPasswords env (handleSignUp env flt db body).db := by
  unfold handleSignUp
  repeat' (first | split | dsimp only)
  all_goals first
    | exact h
    | (rename_i hlong _ _ _ _
       intro u hu
       simp only [User.create, List.mem_append, List.mem_singleton] at hu
       rcases hu with hu | rfl
       · exact h u hu
       · exact ⟨str body.password, Nat.not_lt.mp hlong, rfl⟩)

/-- C10 fails as stated: with Ann stored, a valid token and the password `short`,
the reset is answered 500 and stores nothing when saving the document fails. -/
theorem reset_short_password_save_failure :
    (∃ u ∈ annStore.users, u.email = "ann@x.com") ∧
    demoEnv.verifyPasswordResetToken "reset:ann@x.com" = some "ann@x.com" ∧
    jsLength "short" < 8 ∧
    (handleResetPassword demoEnv { userSave := true } annStore "reset:ann@x.com"
      (some "short")).res.status = 500 ∧
    (handleResetPassword demoEnv { userSave := true } annStore "reset:ann@x.com"
      (some "short")).db = annStore := by
  decide

/-- C10, amended: `handleResetPassword` applies no minimum length. For every store
holding a user with email `E`, every non-empty token that verifies to `E` and every
non-empty password shorter than 8, when no store operation fails it answers 200
and stores `hash password 10` for the user found for `E`; `handleSignUp` answers
400 for that password and for every password shorter than 8; so sign-up preserves that every stored
hash is the hash of a password of at least 8 units, and reset does not. -/
theorem reset_accepts_short_password (env : Env) (flt : Faults) (db : Store)
    (E token p : String)
    (htoken : token ≠ "") (hp : p ≠ "") (hshort : jsLength p < 8)
    (hmem : ∃ u ∈ db.users, u.email = E)
    (htok : env.verifyPasswordResetToken token = some E)
    (hfind : flt.userFindOne = false) (hsave : flt.userSave = false) :
    (∃ id u, User.findOne db E = some (id, u) ∧
      handleResetPassword env flt db token (some p) =
        { db := { db with users := db.users.set id { u with password := env.hash p 10 } },
          res := { status := 200, key := "message",
                   text := "Password reset successfully." } }) ∧
    (∀ (flt2 : Faults) (db2 : Store) (name email : Option String),
      (handleSignUp env flt2 db2 ⟨name, email, some p⟩).res.status = 400 ∧
      (handleSignUp env flt2 db2 ⟨name, email, some p⟩).db = db2) ∧
    (∀ (flt2 : Faults) (db2 : Store) (name email q : Option String),
      jsLength (str q) < 8 →
        (handleSignUp env flt2 db2 ⟨name, email, q⟩).res.status = 400 ∧
        (handleSignUp env flt2 db2 ⟨name, email, q⟩).db = db2) ∧
    (∀ (flt2 : Faults) (db2 : Store) (body : SignUpBody),
      HashesOfLongPasswords env db2 →
        HashesOfLongPasswords env (handleSignUp env flt2 db2 body).db) ∧
    (HashesOfLongPasswords demoEnv annStore ∧
      ¬ HashesOfLongPasswords demoEnv
        (handleResetPassword demoEnv {} annStore "reset:ann@x.com" (some "short")).db) := by
  refine ⟨?_, fun flt2 db2 name email =>
      handleSignUp_short_password env flt2 db2 name email (some p) hshort,
    fun flt2 db2 name email q hq =>
      handleSignUp_short_password env flt2 db2 name email q hq,
    fun flt2 db2 body h => handleSignUp_hashesOfLongPasswords env flt2 db2 body h, ?_, ?_⟩
  · obtain ⟨id, u, hfound⟩ := findOneFrom_isSome hmem 0
    refine ⟨id, u, hfound, ?_⟩
    simp [handleResetPassword, isEmpty_data_eq_false htoken, falsy_some_of_ne hp, htok,
      hfind, hsave, User.findOne, hfound, str, User.save]
  · intro u hu
    simp only [annStore, List.mem_singleton] at hu
    subst hu
    exact ⟨"password1", by decide, rfl⟩
  · intro h
    have hdb : (handleResetPassword demoEnv {} annStore "reset:ann@x.com" (some "short")).db =
        { users := [{ name := "Ann", email := "ann@x.com", password := "$2b$10$short" }],
          profiles := [] } := by decide
    rw [hdb] at h
    obtain ⟨q, hq, hhash⟩ := h _ (List.mem_singleton_self _)
    have hsplit : ("$2b$10$short" : String) = "$2b$10$" ++ "short" := by decide
    have hq2 : "short" = q := by
      apply string_append_left_cancel (a := "$2b$10$")
      rw [← hsplit]
      exact hhash
    subst hq2
    revert hq
    decide

/-- Witness of amended C10: Ann's password is reset to `short`. -/
theorem reset_accepts_short_password_witness :
    ∃ id u, User.findOne annStore "ann@x.com" = some (id, u) ∧
      handleResetPassword demoEnv {} annStore "reset:ann@x.com" (some "short") =
        { db := { annStore with
                  users := annStore.users.set id { u with password := demoEnv.hash "short" 10 } },
          res := { status := 200, key := "message",
                   text := "Password reset successfully." } } :=
  (reset_accepts_short_password demoEnv {} annStore "ann@x.com" "reset:ann@x.com" "short"
    (by decide) (by decide) (by decide) (by decide) (by decide) rfl rfl).1

end Auth
